import Mathlib

/-!
Verification of the asynchronous telemetry polling and render pipeline of the
ExoGenesis-XenoObservatory repository (src/orbital_atlas.py and src/iss_map.py).

The embedding models:
- the HTTP retry helpers http_get_json and http_get_bytes (orbital_atlas.py,
  lines 35-57) over an abstract transport, with explicit invocation and
  sleep counters;
- fetch_iss_position (iss_map.py, lines 15-28) with its between-attempts-only
  sleep policy;
- the IssTab poller state machine: the single-flight tick guard
  fetch_iss_async, the worker body decoding and validating the payload, and
  the signal handlers updating last_pos and the status text;
- the projection latlon_to_xy, the marker clamp and the redraw compositor
  over a pixel-function image model. Numeric values are embedded as exact
  rationals; Python int() truncation toward zero is modelled by pyInt.
-/

/-- Trace of one run of a retry helper over an abstract transport: the
outcome (an error carries the last underlying cause, none when no attempt
ran), the number of transport invocations and the number of sleeps. -/
structure FetchTrace (E A : Type) where
  result : Except (Option E) A
  calls : Nat
  sleeps : Nat

/-- Loop body of http_get_json (orbital_atlas.py lines 36-45): each
iteration invokes the transport; on success the value is returned at once;
on failure the error is recorded as last_err and a sleep of the fixed delay
is performed, also after the final attempt; on exhaustion the failure
carries last_err. -/
def http_json_go {E A : Type} (transport : Nat → Except E A) :
    Nat → Nat → Option E → Nat → Nat → FetchTrace E A
  | _, 0, lastErr, calls, sleeps => ⟨.error lastErr, calls, sleeps⟩
  | i, n + 1, _, calls, sleeps =>
    match transport i with
    | .ok a => ⟨.ok a, calls + 1, sleeps⟩
    | .error e => http_json_go transport (i + 1) n (some e) (calls + 1) (sleeps + 1)

/-- http_get_json (orbital_atlas.py lines 35-45): range(retries) runs
retries.toNat iterations (zero when retries is not positive), starting with
last_err = None. -/
def http_get_json_run {E A : Type} (transport : Nat → Except E A) (retries : Int) :
    FetchTrace E A :=
  http_json_go transport 0 retries.toNat none 0 0

/-- Loop body of http_get_bytes (orbital_atlas.py lines 48-57): identical
control flow to http_json_go, with a streaming byte-buffer transport. -/
def http_bytes_go {E A : Type} (transport : Nat → Except E A) :
    Nat → Nat → Option E → Nat → Nat → FetchTrace E A
  | _, 0, lastErr, calls, sleeps => ⟨.error lastErr, calls, sleeps⟩
  | i, n + 1, _, calls, sleeps =>
    match transport i with
    | .ok a => ⟨.ok a, calls + 1, sleeps⟩
    | .error e => http_bytes_go transport (i + 1) n (some e) (calls + 1) (sleeps + 1)

/-- http_get_bytes (orbital_atlas.py lines 47-57). -/
def http_get_bytes_run {E A : Type} (transport : Nat → Except E A) (retries : Int) :
    FetchTrace E A :=
  http_bytes_go transport 0 retries.toNat none 0 0

/-- Trace of fetch_iss_position (iss_map.py): outcome is an optional
latitude-longitude pair (None on exhaustion, also when the loop never runs),
with invocation and sleep counters. -/
structure IssFetchTrace where
  result : Option (ℚ × ℚ)
  calls : Nat
  sleeps : Nat
deriving DecidableEq, Repr

/-- Loop body of fetch_iss_position (iss_map.py lines 17-28): on failure a
sleep happens only when i < retries - 1; on the final failed attempt the
function returns None with no sleep. -/
def fetch_iss_go (transport : Nat → Except Unit (ℚ × ℚ)) (retries : Int) :
    Nat → Nat → Nat → Nat → IssFetchTrace
  | _, 0, calls, sleeps => ⟨none, calls, sleeps⟩
  | i, n + 1, calls, sleeps =>
    match transport i with
    | .ok p => ⟨some p, calls + 1, sleeps⟩
    | .error _ =>
      if (i : Int) < retries - 1 then
        fetch_iss_go transport retries (i + 1) n (calls + 1) (sleeps + 1)
      else
        ⟨none, calls + 1, sleeps⟩

/-- fetch_iss_position (iss_map.py lines 15-28). -/
def fetch_iss_position_run (transport : Nat → Except Unit (ℚ × ℚ)) (retries : Int) :
    IssFetchTrace :=
  fetch_iss_go transport retries 0 retries.toNat 0 0

/-- An RGB colour, one component per channel. -/
abbrev Color := Int × Int × Int

/-- A decoded raster image as in the PIL model: fixed dimensions and a
pixel function. -/
structure PILImage where
  width : Int
  height : Int
  pixels : Int × Int → Color

/-- Image.copy: an independent value copy of the image; drawing on the copy
leaves the original untouched. -/
def copyImage (img : PILImage) : PILImage :=
  ⟨img.width, img.height, img.pixels⟩

/-- Image.new(mode, (w, h), color): a constant canvas. -/
def imageNew (w h : Int) (c : Color) : PILImage :=
  ⟨w, h, fun _ => c⟩

/-- ImageDraw.ellipse over the bounding box (x0, y0, x1, y1): pixels inside
the box take the fill colour, those on its rim (outline stroke of the given
width) the outline colour; pixels outside are untouched. -/
def drawEllipse (img : PILImage) (x0 y0 x1 y1 : Int) (fill outline : Color)
    (strokeW : Int) : PILImage :=
  { img with
    pixels := fun p =>
      if x0 ≤ p.1 ∧ p.1 ≤ x1 ∧ y0 ≤ p.2 ∧ p.2 ≤ y1 then
        if p.1 < x0 + strokeW ∨ x1 - strokeW < p.1 ∨ p.2 < y0 + strokeW ∨ y1 - strokeW < p.2 then
          outline
        else fill
      else img.pixels p }

/-- ImageDraw.text at a position: one glyph-row of pixels per character of
the label takes the fill colour. -/
def drawText (img : PILImage) (pos : Int × Int) (text : String) (fill : Color) :
    PILImage :=
  { img with
    pixels := fun p =>
      if p.2 = pos.2 ∧ pos.1 ≤ p.1 ∧ p.1 < pos.1 + (text.length : Int) then fill
      else img.pixels p }

/-- Python int() applied to an exact rational: truncation toward zero. -/
def pyInt (q : ℚ) : Int :=
  if q < 0 then ⌈q⌉ else ⌊q⌋

/-- IssTab.latlon_to_xy (orbital_atlas.py lines 272-275):
x = int((lon + 180.0) * (w / 360.0)), y = int((90.0 - lat) * (h / 180.0)). -/
def latlon_to_xy (lat lon : ℚ) (w h : Int) : Int × Int :=
  (pyInt ((lon + 180) * ((w : ℚ) / 360)), pyInt ((90 - lat) * ((h : ℚ) / 180)))

/-- The marker clamp of IssTab.redraw (orbital_atlas.py lines 291-292):
x = max(r, min(w - r, x)); y = max(r, min(h - r, y)). -/
def clampMarker (w h r x y : Int) : Int × Int :=
  (max r (min (w - r) x), max r (min (h - r) y))

/-- The projection formula exactly as the spec words it:
x = (longitude + 180) * (w / 360). -/
def specProjX (lon w : ℚ) : ℚ :=
  (lon + 180) * (w / 360)

/-- The projection formula exactly as the spec words it:
y = (90 - latitude) * (h / 180). -/
def specProjY (lat h : ℚ) : ℚ :=
  (90 - lat) * (h / 180)

/-- The iss_position sub-object of the payload. A field value is none when
the key is absent; some none when present but not convertible by float();
some (some q) when it converts to the rational q. -/
structure PosObj where
  latitude : Option (Option ℚ)
  longitude : Option (Option ℚ)

/-- The decoded JSON payload of the position endpoint: data.get("iss_position"). -/
structure IssPayload where
  iss_position : Option PosObj

/-- Outcome of the http_get_json call inside the poller worker: err is a
network failure raised after the retries are exhausted. -/
inductive FetchResult where
  | ok (data : IssPayload)
  | err

/-- The poller state of IssTab: the cached world image (None before load or
after a failed load), the last accepted position, the single-flight guard,
the status label text, the info label text and the map label pixmap. -/
structure IssState where
  worldImg : Option PILImage
  lastPos : Option (ℚ × ℚ)
  fetching : Bool
  status : String
  infoText : String
  mapPixmap : Option PILImage

/-- Status text emitted on a successful position update (line 256). -/
def issOkMsg : String := "Durum: ISS konumu güncellendi"

/-- Status text emitted when the fetch or validation fails (line 259). -/
def issFailMsg : String := "Durum: ISS konumu alınamadı (geçici)"

/-- Two-decimal rounding used by the marker label format. -/
def round2 (q : ℚ) : ℚ :=
  (⌊q * 100 + 1 / 2⌋ : ℚ) / 100

/-- Three-decimal rounding used by the info label format. -/
def round3 (q : ℚ) : ℚ :=
  (⌊q * 1000 + 1 / 2⌋ : ℚ) / 1000

/-- IssTab.redraw (orbital_atlas.py lines 277-301): copy the cached world
image (or a fresh black 800x400 canvas when none is cached), draw the
clamped marker and its label when a position is known, otherwise a waiting
label; store the result as the map pixmap and return it as the rendered
frame. -/
def redraw (s : IssState) : IssState × PILImage :=
  let base :=
    match s.worldImg with
    | some img => copyImage img
    | none => imageNew 800 400 (0, 0, 0)
  let w := base.width
  let h := base.height
  match s.lastPos with
  | some (lat, lon) =>
    let p := latlon_to_xy lat lon w h
    let r : Int := 10
    let c := clampMarker w h r p.1 p.2
    let base := drawEllipse base (c.1 - r) (c.2 - r) (c.1 + r) (c.2 + r)
      (255, 0, 0) (0, 0, 0) 2
    let label := "ISS Konumu | Lat: " ++ toString (round2 lat) ++ ", Lon: " ++
      toString (round2 lon)
    let base := drawText base (20, 20) label (255, 255, 255)
    ({ s with
        infoText := "Son konum: Lat " ++ toString (round3 lat) ++ ", Lon " ++
          toString (round3 lon),
        mapPixmap := some base },
      base)
  | none =>
    let base := drawText base (20, 20) "ISS konumu yok (bekleniyor)" (255, 255, 255)
    ({ s with infoText := "Son konum: yok", mapPixmap := some base }, base)

/-- IssTab._on_position (lines 265-267): store the position and redraw. -/
def on_position (s : IssState) (lat lon : ℚ) : IssState :=
  (redraw { s with lastPos := some (lat, lon) }).1

/-- IssTab._on_status (lines 269-270): set the status label text. -/
def on_status (s : IssState) (text : String) : IssState :=
  { s with status := text }

/-- The worker body of IssTab.fetch_iss_async (lines 241-261): decode and
validate the payload; a missing iss_position sub-object, a missing latitude
or longitude key, or a value float() rejects, all raise and are handled as
a failure that only emits the failure status; a valid pair emits the
position (stored by _on_position, which also redraws) and then the success
status; the finally block clears the single-flight guard. -/
def fetch_worker (s : IssState) (res : FetchResult) : IssState :=
  let s2 :=
    match res with
    | .err => on_status s issFailMsg
    | .ok data =>
      match data.iss_position with
      | none => on_status s issFailMsg
      | some pos =>
        match pos.latitude, pos.longitude with
        | some (some lat), some (some lon) => on_status (on_position s lat lon) issOkMsg
        | _, _ => on_status s issFailMsg
  { s2 with fetching := false }

/-- IssTab.fetch_iss_async tick entry (lines 236-239): when a fetch is
already in flight the tick returns at once; otherwise the guard is set and
a worker is spawned. The boolean records whether a fetch was invoked. -/
def fetch_iss_async (s : IssState) : IssState × Bool :=
  if s.fetching then (s, false)
  else ({ s with fetching := true }, true)

/-- The tab-level state: the poller state plus instrumentation counting the
backdrop fetch invocations and the position fetch invocations. -/
structure AppState where
  iss : IssState
  backdropFetches : Nat
  positionFetches : Nat

/-- IssTab.__init__ (lines 170-186): fields start empty, the status label
shows the initial text, load_world_image_async is invoked exactly once, and
the timer wired to fetch_iss_async is started. -/
def issTabInit : AppState :=
  { iss :=
      { worldImg := none
        lastPos := none
        fetching := false
        status := "Durum: başlangıç"
        infoText := ""
        mapPixmap := none }
    backdropFetches := 1
    positionFetches := 0 }

/-- Status text template on a failed world-image load (line 225). -/
def worldFailMsg (e : String) : String :=
  "Durum: Dünya görseli yüklenemedi (" ++ e ++ "). Siyah arka plan."

/-- The failure branch of the load_world_image_async worker
(lines 221-225) followed by its signal handlers: world_img_pil is cleared,
_on_world_pixmap falls back to a black 800x400 pixmap, and the status shows
the failure text. -/
def world_load_fail (a : AppState) (e : String) : AppState :=
  { a with
    iss :=
      { a.iss with
        worldImg := none
        mapPixmap := some (imageNew 800 400 (0, 0, 0))
        status := worldFailMsg e } }

/-- The events the running tab processes after construction: ticks of the
ten-second timer (wired only to fetch_iss_async) and completions of a
position-fetch worker. -/
inductive IssEvent where
  | timerTick
  | workerDone (res : FetchResult)

/-- One event step of the running tab. A timer tick runs fetch_iss_async
and counts a position fetch when one was spawned; a worker completion runs
the worker body. No event invokes the backdrop loader. -/
def appStep (a : AppState) : IssEvent → AppState
  | .timerTick =>
    let r := fetch_iss_async a.iss
    { a with
      iss := r.1
      positionFetches := if r.2 then a.positionFetches + 1 else a.positionFetches }
  | .workerDone res => { a with iss := fetch_worker a.iss res }

/-- Classification of a worker outcome as the poller validates it: some
pair when the payload carries a present, float-convertible latitude and
longitude; none on a network failure or any validation failure. -/
def fetchSucceeds : FetchResult → Option (ℚ × ℚ)
  | .err => none
  | .ok data =>
    match data.iss_position with
    | none => none
    | some pos =>
      match pos.latitude, pos.longitude with
      | some (some lat), some (some lon) => some (lat, lon)
      | _, _ => none

/-- A payload whose latitude parses to 1000 and longitude to 0: both keys
present and float-convertible, but far outside the geographic ranges. -/
def outOfRangePayload : IssPayload :=
  ⟨some ⟨some (some 1000), some (some 0)⟩⟩

theorem pyInt_eq_of_nonneg (q : ℚ) (n : Int) (h0 : 0 ≤ q) (h1 : (n : ℚ) ≤ q)
    (h2 : q < n + 1) : pyInt q = n := by
  unfold pyInt
  rw [if_neg (not_lt.mpr h0)]
  exact Int.floor_eq_iff.mpr ⟨h1, by exact_mod_cast h2⟩

theorem http_json_go_fail_counts {E A : Type} (transport : Nat → Except E A)
    (errOf : Nat → E) (hfail : ∀ j, transport j = .error (errOf j)) :
    ∀ (n i : Nat) (lastErr : Option E) (calls sleeps : Nat),
      (http_json_go transport i n lastErr calls sleeps).calls = calls + n ∧
      (http_json_go transport i n lastErr calls sleeps).sleeps = sleeps + n := by
  intro n
  induction n with
  | zero => intro i lastErr calls sleeps; simp [http_json_go]
  | succ m ih =>
    intro i lastErr calls sleeps
    simp only [http_json_go, hfail]
    have := ih (i + 1) (some (errOf i)) (calls + 1) (sleeps + 1)
    omega

theorem http_bytes_go_fail_counts {E A : Type} (transport : Nat → Except E A)
    (errOf : Nat → E) (hfail : ∀ j, transport j = .error (errOf j)) :
    ∀ (n i : Nat) (lastErr : Option E) (calls sleeps : Nat),
      (http_bytes_go transport i n lastErr calls sleeps).calls = calls + n ∧
      (http_bytes_go transport i n lastErr calls sleeps).sleeps = sleeps + n := by
  intro n
  induction n with
  | zero => intro i lastErr calls sleeps; simp [http_bytes_go]
  | succ m ih =>
    intro i lastErr calls sleeps
    simp only [http_bytes_go, hfail]
    have := ih (i + 1) (some (errOf i)) (calls + 1) (sleeps + 1)
    omega

theorem fetch_iss_go_fail (transport : Nat → Except Unit (ℚ × ℚ)) (retries : Int)
    (hfail : ∀ j, transport j = .error ()) :
    ∀ (n i calls sleeps : Nat), 1 ≤ n → (i : Int) + n = retries →
      fetch_iss_go transport retries i n calls sleeps =
        ⟨none, calls + n, sleeps + (n - 1)⟩ := by
  intro n
  induction n with
  | zero => intro i calls sleeps h; omega
  | succ m ih =>
    intro i calls sleeps _ hsum
    rw [fetch_iss_go]
    rw [hfail i]
    by_cases hm : m = 0
    · subst hm
      have hc : ¬ ((i : Int) < retries - 1) := by omega
      rw [if_neg hc]
      simp
    · have hc : (i : Int) < retries - 1 := by omega
      rw [if_pos hc]
      rw [ih (i + 1) (calls + 1) (sleeps + 1) (by omega) (by omega)]
      have h1 : calls + 1 + m = calls + (m + 1) := by omega
      have h2 : sleeps + 1 + (m - 1) = sleeps + (m + 1 - 1) := by omega
      rw [h1, h2]

theorem fetch_worker_worldImg (s : IssState) (res : FetchResult) :
    (fetch_worker s res).worldImg = s.worldImg := by
  cases res with
  | err => rfl
  | ok data =>
    obtain ⟨ip⟩ := data
    rcases ip with _ | ⟨latF, lonF⟩
    · rfl
    · rcases latF with _ | ⟨_ | latV⟩ <;> rcases lonF with _ | ⟨_ | lonV⟩ <;> rfl

theorem appStep_keeps_world (a : AppState) (e : IssEvent) :
    (appStep a e).iss.worldImg = a.iss.worldImg ∧
    (appStep a e).backdropFetches = a.backdropFetches := by
  cases e with
  | timerTick =>
    by_cases hf : a.iss.fetching <;> simp [appStep, fetch_iss_async, hf]
  | workerDone res => exact ⟨fetch_worker_worldImg a.iss res, rfl⟩

theorem foldl_appStep_keeps_world (events : List IssEvent) :
    ∀ a : AppState,
      (events.foldl appStep a).iss.worldImg = a.iss.worldImg ∧
      (events.foldl appStep a).backdropFetches = a.backdropFetches := by
  induction events with
  | nil => intro a; simp
  | cons e es ih =>
    intro a
    have h1 := appStep_keeps_world a e
    have h2 := ih (appStep a e)
    exact ⟨h2.1.trans h1.1, h2.2.trans h1.2⟩

theorem redraw_dims_of_none (s : IssState) (h : s.worldImg = none) :
    (redraw s).2.width = 800 ∧ (redraw s).2.height = 400 := by
  obtain ⟨wi, lp, f, st, it, mp⟩ := s
  simp only at h
  subst h
  rcases lp with _ | ⟨lat, lon⟩ <;>
    simp [redraw, imageNew, drawText, drawEllipse, copyImage]

/-- C1: when isFetching is already true, a timer tick entering
fetch_iss_async returns at once: the poller state is unchanged and no new
fetch is invoked, so at most one position fetch is in flight. -/
theorem claim_C1_tick_dropped (s : IssState) (h : s.fetching = true) :
    fetch_iss_async s = (s, false) := by
  simp [fetch_iss_async, h]

theorem claim_C1_witness :
    fetch_iss_async { issTabInit.iss with fetching := true } =
      ({ issTabInit.iss with fetching := true }, false) :=
  claim_C1_tick_dropped { issTabInit.iss with fetching := true } rfl

/-- C2: against a transport failing on every attempt, http_get_json with
retries = 3 invokes the transport exactly three times and returns the
failure carrying the error of the last (third) attempt, never a partial
success. -/
theorem claim_C2_three_attempts {E A : Type} (transport : Nat → Except E A)
    (errOf : Nat → E) (hfail : ∀ j, transport j = .error (errOf j)) :
    (http_get_json_run transport 3).calls = 3 ∧
    (http_get_json_run transport 3).result = .error (some (errOf 2)) := by
  simp [http_get_json_run, http_json_go, hfail 0, hfail 1, hfail 2]

theorem claim_C2_witness :
    (http_get_json_run (fun _ => (Except.error 7 : Except Nat Nat)) 3).calls = 3 ∧
    (http_get_json_run (fun _ => (Except.error 7 : Except Nat Nat)) 3).result =
      .error (some 7) :=
  claim_C2_three_attempts (fun _ => Except.error 7) (fun _ => 7) (fun _ => rfl)

/-- C3: over a full poll cycle started from an idle state, a network
failure or any validation failure (missing sub-object, missing or
non-numeric latitude or longitude) leaves the state identical except for
the status text, in particular lastPosition is untouched; a validated
success stores the position and sets the success status, with the guard
cleared. -/
theorem claim_C3_failure_keeps_lastPos (s : IssState) (res : FetchResult)
    (h : s.fetching = false) :
    (fetchSucceeds res = none →
      fetch_worker (fetch_iss_async s).1 res = { s with status := issFailMsg }) ∧
    (∀ lat lon, fetchSucceeds res = some (lat, lon) →
      (fetch_worker (fetch_iss_async s).1 res).lastPos = some (lat, lon) ∧
      (fetch_worker (fetch_iss_async s).1 res).status = issOkMsg ∧
      (fetch_worker (fetch_iss_async s).1 res).fetching = false) := by
  obtain ⟨wi, lp, f, st, it, mp⟩ := s
  simp only at h
  subst h
  constructor
  · intro hnone
    cases res with
    | err => rfl
    | ok data =>
      obtain ⟨ip⟩ := data
      rcases ip with _ | ⟨latF, lonF⟩
      · rfl
      · rcases latF with _ | ⟨_ | latV⟩ <;> rcases lonF with _ | ⟨_ | lonV⟩ <;>
          first
          | rfl
          | simp [fetchSucceeds] at hnone
  · intro lat lon hsome
    cases res with
    | err => simp [fetchSucceeds] at hsome
    | ok data =>
      obtain ⟨ip⟩ := data
      rcases ip with _ | ⟨latF, lonF⟩
      · simp [fetchSucceeds] at hsome
      · rcases latF with _ | ⟨_ | latV⟩ <;> rcases lonF with _ | ⟨_ | lonV⟩ <;>
          simp [fetchSucceeds] at hsome
        obtain ⟨h1, h2⟩ := hsome
        subst h1
        subst h2
        exact ⟨rfl, rfl, rfl⟩

theorem claim_C3_witness :
    (fetchSucceeds .err = none →
      fetch_worker (fetch_iss_async issTabInit.iss).1 .err =
        { issTabInit.iss with status := issFailMsg }) ∧
    (∀ lat lon, fetchSucceeds .err = some (lat, lon) →
      (fetch_worker (fetch_iss_async issTabInit.iss).1 .err).lastPos = some (lat, lon) ∧
      (fetch_worker (fetch_iss_async issTabInit.iss).1 .err).status = issOkMsg ∧
      (fetch_worker (fetch_iss_async issTabInit.iss).1 .err).fetching = false) :=
  claim_C3_failure_keeps_lastPos issTabInit.iss .err rfl

/-- C4: for latitude in its range, longitude in its range, and a marker
radius fitting the backdrop twice over in each dimension, the
projected-then-clamped marker centre lies within the box
from r to w - r horizontally and r to h - r vertically. -/
theorem claim_C4_marker_in_bounds (lat lon : ℚ) (w h r : Int)
    (_hlat1 : -90 ≤ lat) (_hlat2 : lat ≤ 90)
    (_hlon1 : -180 ≤ lon) (_hlon2 : lon ≤ 180)
    (hw : 2 * r ≤ w) (hh : 2 * r ≤ h) :
    r ≤ (clampMarker w h r (latlon_to_xy lat lon w h).1 (latlon_to_xy lat lon w h).2).1 ∧
    (clampMarker w h r (latlon_to_xy lat lon w h).1 (latlon_to_xy lat lon w h).2).1 ≤ w - r ∧
    r ≤ (clampMarker w h r (latlon_to_xy lat lon w h).1 (latlon_to_xy lat lon w h).2).2 ∧
    (clampMarker w h r (latlon_to_xy lat lon w h).1 (latlon_to_xy lat lon w h).2).2 ≤ h - r := by
  simp only [clampMarker]
  omega

theorem claim_C4_witness :
    (-90 ≤ (0 : ℚ) ∧ (0 : ℚ) ≤ 90 ∧ -180 ≤ (0 : ℚ) ∧ (0 : ℚ) ≤ 180 ∧
      2 * (10 : Int) ≤ 800 ∧ 2 * (10 : Int) ≤ 400) ∧
    (10 ≤ (clampMarker 800 400 10 (latlon_to_xy 0 0 800 400).1 (latlon_to_xy 0 0 800 400).2).1 ∧
     (clampMarker 800 400 10 (latlon_to_xy 0 0 800 400).1 (latlon_to_xy 0 0 800 400).2).1 ≤ 800 - 10 ∧
     10 ≤ (clampMarker 800 400 10 (latlon_to_xy 0 0 800 400).1 (latlon_to_xy 0 0 800 400).2).2 ∧
     (clampMarker 800 400 10 (latlon_to_xy 0 0 800 400).1 (latlon_to_xy 0 0 800 400).2).2 ≤ 400 - 10) :=
  ⟨by norm_num,
    claim_C4_marker_in_bounds 0 0 800 400 10 (by norm_num) (by norm_num)
      (by norm_num) (by norm_num) (by norm_num) (by norm_num)⟩

/-- C5 counterexample: at latitude 0 and longitude 1 on an 800x400
backdrop, the code computes x = 402 while the claimed formula yields
3620/9, so the projection does not compute the exact real-valued formula:
int() truncation intervenes. -/
theorem claim_C5_counterexample :
    ¬ (((latlon_to_xy 0 1 800 400).1 : ℚ) = specProjX 1 800) := by
  have hx : (latlon_to_xy 0 1 800 400).1 = 402 := by
    simp only [latlon_to_xy]
    apply pyInt_eq_of_nonneg <;> norm_num
  rw [hx]
  unfold specProjX
  norm_num

/-- C5 (amended): the projection computes the int() truncation of
x = (longitude + 180) * (w / 360) and y = (90 - latitude) * (h / 180); in
particular latitude 0 and longitude 0 on an 800x400 backdrop project
exactly to (400, 200). -/
theorem claim_C5_projection (lat lon : ℚ) (w h : Int) :
    latlon_to_xy lat lon w h =
      (pyInt (specProjX lon (w : ℚ)), pyInt (specProjY lat (h : ℚ))) ∧
    latlon_to_xy 0 0 800 400 = (400, 200) := by
  constructor
  · rfl
  · simp only [latlon_to_xy, Prod.mk.injEq]
    constructor <;> (apply pyInt_eq_of_nonneg <;> norm_num)

/-- C6 counterexample: a payload whose latitude parses to 1000 (far
outside the range) is accepted by the worker and stored in lastPos, so the
poller does not treat out-of-range coordinates as failed attempts. -/
theorem claim_C6_counterexample :
    (fetch_worker issTabInit.iss (.ok outOfRangePayload)).lastPos = some (1000, 0) ∧
    ¬ ((1000 : ℚ) ≤ 90) := by
  constructor
  · rfl
  · norm_num

/-- C6 (amended): the poller accepts exactly the payloads whose latitude
and longitude keys are present and float-convertible; no range check is
performed, so any numeric pair, in range or not, is stored in lastPos and
reported as a success. -/
theorem claim_C6_no_range_check (s : IssState) (lat lon : ℚ) :
    (fetch_worker s (.ok ⟨some ⟨some (some lat), some (some lon)⟩⟩)).lastPos =
      some (lat, lon) ∧
    (fetch_worker s (.ok ⟨some ⟨some (some lat), some (some lon)⟩⟩)).status =
      issOkMsg :=
  ⟨rfl, rfl⟩

/-- C7: after a failed one-shot backdrop load, any sequence of timer ticks
and position-worker completions leaves the backdrop fetch count at the
single construction-time invocation and the cache in the blank-fallback
state, and every composite then renders a frame of the fixed 800x400
dimensions. -/
theorem claim_C7_no_backdrop_retry (e : String) (events : List IssEvent) :
    (events.foldl appStep (world_load_fail issTabInit e)).backdropFetches = 1 ∧
    (events.foldl appStep (world_load_fail issTabInit e)).iss.worldImg = none ∧
    (redraw (events.foldl appStep (world_load_fail issTabInit e)).iss).2.width = 800 ∧
    (redraw (events.foldl appStep (world_load_fail issTabInit e)).iss).2.height = 400 := by
  have h := foldl_appStep_keeps_world events (world_load_fail issTabInit e)
  have hw : (world_load_fail issTabInit e).iss.worldImg = none := rfl
  have hb : (world_load_fail issTabInit e).backdropFetches = 1 := rfl
  have hnone : (events.foldl appStep (world_load_fail issTabInit e)).iss.worldImg = none :=
    h.1.trans hw
  have hd := redraw_dims_of_none _ hnone
  exact ⟨h.2.trans hb, hnone, hd.1, hd.2⟩

/-- C8: the compositor never mutates the cached backdrop: after a redraw
the stored world image, pixel buffer included, is the very value it was
before the call; the rendered frame is drawn on a copy. -/
theorem claim_C8_backdrop_not_mutated (s : IssState) :
    (redraw s).1.worldImg = s.worldImg := by
  obtain ⟨wi, lp, f, st, it, mp⟩ := s
  rcases lp with _ | ⟨lat, lon⟩ <;> rfl

/-- C9 counterexample: with a single attempt against a failing transport,
http_get_json performs one sleep, not maxAttempts - 1 = 0: the fixed delay
also follows the final attempt before the failure is returned. -/
theorem claim_C9_counterexample :
    ¬ ((http_get_json_run (fun _ => (Except.error 0 : Except Nat Nat)) 1).sleeps
        = 1 - 1) := by
  simp [http_get_json_run, http_json_go, Int.toNat_one]

/-- C9 (amended): against transports failing on every attempt,
http_get_json and http_get_bytes sleep after every failed attempt, the
final one included, so exactly maxAttempts sleeps happen; only iss_map's
fetch_iss_position sleeps strictly between consecutive attempts, exactly
maxAttempts - 1 times, with no sleep after the final attempt before the
failure value is returned. All three invoke the transport exactly
maxAttempts times. -/
theorem claim_C9_sleep_policy {E A E2 A2 : Type}
    (tj : Nat → Except E A) (ej : Nat → E)
    (tb : Nat → Except E2 A2) (eb : Nat → E2)
    (ti : Nat → Except Unit (ℚ × ℚ))
    (n : Nat) (hn : 1 ≤ n)
    (hj : ∀ j, tj j = .error (ej j)) (hb : ∀ j, tb j = .error (eb j))
    (hi : ∀ j, ti j = .error ()) :
    (http_get_json_run tj (n : Int)).calls = n ∧
    (http_get_json_run tj (n : Int)).sleeps = n ∧
    (http_get_bytes_run tb (n : Int)).calls = n ∧
    (http_get_bytes_run tb (n : Int)).sleeps = n ∧
    (fetch_iss_position_run ti (n : Int)).calls = n ∧
    (fetch_iss_position_run ti (n : Int)).sleeps = n - 1 ∧
    (fetch_iss_position_run ti (n : Int)).result = none := by
  have htn : ((n : Int)).toNat = n := by omega
  have h1 := http_json_go_fail_counts tj ej hj n 0 none 0 0
  have h2 := http_bytes_go_fail_counts tb eb hb n 0 none 0 0
  have h3 := fetch_iss_go_fail ti (n : Int) hi n 0 0 0 hn (by omega)
  simp only [http_get_json_run, http_get_bytes_run, fetch_iss_position_run, htn]
  rw [h3]
  refine ⟨?_, ?_, ?_, ?_, ?_, ?_, rfl⟩ <;> (try simp) <;> omega

theorem claim_C9_witness :
    1 ≤ 2 ∧
    ((http_get_json_run (fun _ => (Except.error 3 : Except Nat Nat)) ((2 : Nat) : Int)).calls = 2 ∧
     (http_get_json_run (fun _ => (Except.error 3 : Except Nat Nat)) ((2 : Nat) : Int)).sleeps = 2 ∧
     (http_get_bytes_run (fun _ => (Except.error 4 : Except Nat Nat)) ((2 : Nat) : Int)).calls = 2 ∧
     (http_get_bytes_run (fun _ => (Except.error 4 : Except Nat Nat)) ((2 : Nat) : Int)).sleeps = 2 ∧
     (fetch_iss_position_run (fun _ => Except.error ()) ((2 : Nat) : Int)).calls = 2 ∧
     (fetch_iss_position_run (fun _ => Except.error ()) ((2 : Nat) : Int)).sleeps = 2 - 1 ∧
     (fetch_iss_position_run (fun _ => Except.error ()) ((2 : Nat) : Int)).result = none) :=
  ⟨by decide,
    claim_C9_sleep_policy (fun _ => Except.error 3) (fun _ => 3)
      (fun _ => Except.error 4) (fun _ => 4) (fun _ => Except.error ())
      2 (by decide) (fun _ => rfl) (fun _ => rfl) (fun _ => rfl)⟩

/-- C10: with retries at zero or below, the attempt loop body of
http_get_json and http_get_bytes never executes: no transport invocation,
no sleep, and the raised failure carries last_err = None. -/
theorem claim_C10_no_attempt {E A E2 A2 : Type} (tj : Nat → Except E A)
    (tb : Nat → Except E2 A2) (r : Int) (hr : r ≤ 0) :
    http_get_json_run tj r = ⟨.error none, 0, 0⟩ ∧
    http_get_bytes_run tb r = ⟨.error none, 0, 0⟩ := by
  have h : r.toNat = 0 := by omega
  constructor <;>
    simp [http_get_json_run, http_get_bytes_run, h, http_json_go, http_bytes_go]

theorem claim_C10_witness :
    (0 : Int) ≤ 0 ∧
    (http_get_json_run (fun _ => (Except.error 1 : Except Nat Nat)) 0 =
        ⟨.error none, 0, 0⟩ ∧
      http_get_bytes_run (fun _ => (Except.error 2 : Except Nat Nat)) 0 =
        ⟨.error none, 0, 0⟩) :=
  ⟨by decide,
    claim_C10_no_attempt (fun _ => Except.error 1) (fun _ => Except.error 2) 0
      (by decide)⟩
